import Mathlib

/-!
Verification development for the NeuroBridge real-time gateway.

Shallow embedding of:
- backend/apps/stream/consumers.py  (NeuroBridgeConsumer)
- backend/apps/stream/middleware.py (JWTAuthMiddleware, get_user_from_token)
- backend/apps/assistant_sessions/models.py  (Session, EncryptedMetadata)
- backend/apps/assistant_sessions/serializers.py (EncryptedMetadataSerializer.validate_iv)

Modelling conventions:
- Timestamps are integers (whole seconds).  timezone.now() values are passed
  in explicitly as a parameter named now.  Python datetime subtraction followed
  by int(...total_seconds()) is exact integer subtraction at this granularity.
- Database rows are lists; Session.objects.get(id=sid, user=u) is a find over
  the list with both filters, returning none for DoesNotExist.
- Base64 wire strings are abstracted to their decode outcome (the code never
  inspects the undecoded text): a value is either the empty string (falsy in
  Python truthiness checks), a malformed string on which base64.b64decode
  raises, or a string decoding to a concrete byte list.
- The channel layer is a membership list of (group user id, channel name)
  pairs; the group key user_<id> of consumers.py is injective in the user id
  and is modelled by the id itself.  Delivered messages are recorded in an
  outbox of (channel name, message) pairs in delivery order.
- Python exceptions are explicit: fallible operations return Except, and the
  except-branches of the source are the error branches here.
- Note: consumers.py imports the models as apps.sessions.models; the models
  themselves live in backend/apps/assistant_sessions/models.py, whose module
  docstring calls it the Sessions app.  The embedding uses those model
  definitions as the referent of the import.
-/

namespace NeuroBridge

/-- Authenticated principal (Django auth user as seen by the gateway):
opaque id plus display name. -/
structure Identity where
  id : Nat
  username : String
deriving DecidableEq, Repr

/-- Session model (models.py, class Session): started_at auto_now_add,
ended_at nullable, optional title, duration_seconds nullable, is_active
default True. -/
structure Session where
  id : Nat
  userId : Nat
  startedAt : Int
  endedAt : Option Int
  title : String
  durationSeconds : Option Int
  isActive : Bool
deriving DecidableEq, Repr

/-- Session.end_session (models.py): sets ended_at to now, is_active to
False, duration_seconds to int((ended_at - started_at).total_seconds()),
then saves.  There is no guard on is_active in this method. -/
def Session.end_session (s : Session) (now : Int) : Session :=
  { s with endedAt := some now
           isActive := false
           durationSeconds := some (now - s.startedAt) }

/-- EncryptedMetadata model (models.py): owning session, binary blob and iv,
data_type tag, created_at auto_now_add. -/
structure EncryptedMetadata where
  id : Nat
  sessionId : Nat
  encryptedBlob : List Nat
  iv : List Nat
  dataType : String
  createdAt : Int
deriving DecidableEq, Repr

/-- The relational store as the gateway sees it: session rows, metadata rows,
and the auto-increment counters for primary keys. -/
structure Database where
  sessions : List Session
  metadata : List EncryptedMetadata
  nextSessionId : Nat
  nextMetadataId : Nat
deriving DecidableEq, Repr

/-- Session.objects.get(id=session_id, user=self.user): the identity-scoped
lookup used by end_session and store_metadata in consumers.py.  none models
Session.DoesNotExist. -/
def findSession (db : Database) (sid uid : Nat) : Option Session :=
  db.sessions.find? (fun s => s.id == sid && s.userId == uid)

/-- A base64 wire value, abstracted to its decode outcome.  emptyStr is the
empty string (falsy in Python); malformed is a truthy string on which
base64.b64decode raises; decoded bs is a truthy string decoding to bs. -/
inductive B64 where
  | emptyStr
  | malformed
  | decoded (bytes : List Nat)
deriving DecidableEq, Repr

/-- base64.b64decode on the abstracted wire value. -/
def b64decode : B64 → Except String (List Nat)
  | .emptyStr => .ok []
  | .malformed => .error "Invalid base64-encoded string"
  | .decoded bs => .ok bs

/-- EncryptedMetadataSerializer.validate_iv (serializers.py): decodes, then
raises a ValidationError unless the decoded length is exactly 12.  In the
source the length ValidationError is raised inside the try block and is
itself caught by the blanket except, so the surfaced message is the base64
one; the rejection itself is what matters here. -/
def validate_iv (value : B64) : Except String (List Nat) :=
  match b64decode value with
  | .error _ => .error "Invalid base64 encoding"
  | .ok bs =>
    if bs.length ≠ 12 then .error "Invalid base64 encoding"
    else .ok bs

/-- Outbound gateway message, one constructor per send_json dict literal in
consumers.py. -/
inductive OutMsg where
  | connectionEstablished (userId : Nat) (username : String) (timestamp : Int)
  | sessionStarted (sessionId : Nat) (startedAt : Int)
  | sessionEnded (sessionId : Nat)
  | metadataSynced (metadataId : Nat) (timestamp : Int)
  | presencePong (timestamp : Int)
  | sessionUpdate (action : String) (sessionId : Nat)
  | error (message : String) (timestamp : Int)
deriving DecidableEq, Repr

/-- The value of the type field of each send_json dict literal. -/
def OutMsg.wireType : OutMsg → String
  | .connectionEstablished _ _ _ => "connection.established"
  | .sessionStarted _ _ => "session.started"
  | .sessionEnded _ => "session.ended"
  | .metadataSynced _ _ => "metadata.synced"
  | .presencePong _ => "presence.pong"
  | .sessionUpdate _ _ => "session.update"
  | .error _ _ => "error"

/-- The keys of each send_json dict literal in consumers.py, in source
order.  The connection.established payload carries user_id, not an
identity_id key. -/
def OutMsg.wireKeys : OutMsg → List String
  | .connectionEstablished _ _ _ => ["type", "user_id", "username", "timestamp"]
  | .sessionStarted _ _ => ["type", "session_id", "started_at"]
  | .sessionEnded _ => ["type", "session_id"]
  | .metadataSynced _ _ => ["type", "metadata_id", "timestamp"]
  | .presencePong _ => ["type", "timestamp"]
  | .sessionUpdate _ _ => ["type", "action", "session_id"]
  | .error _ _ => ["type", "message", "timestamp"]

/-- Outcome of jwt.decode on the presented token (middleware.py): a decoded
payload with an optional user_id claim, or one of the two exception classes
the middleware catches. -/
inductive JwtDecode where
  | ok (payloadUserId : Option Nat)
  | expiredSignature
  | invalidToken
deriving DecidableEq, Repr

/-- The value the middleware attaches to scope user: AnonymousUser or an
authenticated user. -/
inductive AuthUser where
  | anonymous
  | authenticated (u : Identity)
deriving DecidableEq, Repr

/-- user.is_authenticated (AnonymousUser reports False). -/
def AuthUser.is_authenticated : AuthUser → Bool
  | .anonymous => false
  | .authenticated _ => true

/-- get_user_from_token (middleware.py): every failure branch, namely
ExpiredSignatureError, InvalidTokenError, a payload without a user_id claim,
and User.DoesNotExist, returns AnonymousUser; otherwise the resolved user. -/
def get_user_from_token (decode : JwtDecode) (users : List Identity) : AuthUser :=
  match decode with
  | .expiredSignature => .anonymous
  | .invalidToken => .anonymous
  | .ok none => .anonymous
  | .ok (some uid) =>
    match users.find? (fun u => u.id == uid) with
    | none => .anonymous
    | some u => .authenticated u

/-- JWTAuthMiddleware call (middleware.py): a token absent from the query
string yields AnonymousUser without calling the validator; otherwise the
validator result is attached to the scope. -/
def scope_user (token : Option JwtDecode) (users : List Identity) : AuthUser :=
  match token with
  | none => .anonymous
  | some d => get_user_from_token d users

/-- Runtime state threaded through the gateway: the store, the channel-layer
group membership pairs (group user id, channel name), and the outbox of
delivered (channel name, message) pairs in delivery order. -/
structure GatewayState where
  db : Database
  groups : List (Nat × Nat)
  outbox : List (Nat × OutMsg)
deriving DecidableEq, Repr

/-- Messages delivered so far on one channel, in order. -/
def sentTo (st : GatewayState) (ch : Nat) : List OutMsg :=
  (st.outbox.filter (fun p => p.1 == ch)).map Prod.snd

/-- self.send_json: append one message to the own channel. -/
def sendTo (st : GatewayState) (ch : Nat) (m : OutMsg) : GatewayState :=
  { st with outbox := st.outbox ++ [(ch, m)] }

/-- The event dict passed to channel_layer.group_send by the session
handlers: type session_update plus action and session_id. -/
structure GroupEvent where
  action : String
  sessionId : Nat
deriving DecidableEq, Repr

/-- NeuroBridgeConsumer.session_update: each group member turns the event
into a session.update message on its own channel. -/
def session_update (e : GroupEvent) : OutMsg :=
  .sessionUpdate e.action e.sessionId

/-- channel_layer.group_send on the group keyed by gid: delivers the event to
every current member channel, each of which runs session_update. -/
def group_send (st : GatewayState) (gid : Nat) (e : GroupEvent) : GatewayState :=
  let members := st.groups.filter (fun p => p.1 == gid)
  let deliveries := members.map (fun p => (p.2, session_update e))
  { st with outbox := st.outbox ++ deliveries }

namespace Consumer

/-- A live connection: its channel name and the identity resolved at connect
time (scope user, fixed for the life of the connection). -/
structure Conn where
  ch : Nat
  user : Identity
deriving DecidableEq, Repr

/-- Result of NeuroBridgeConsumer.connect: either the socket was closed with
a close code before being accepted, or it was accepted with the state after
the group join and the initial send. -/
inductive ConnectResult where
  | closed (code : Nat) (st : GatewayState)
  | accepted (st : GatewayState)
deriving DecidableEq, Repr

/-- NeuroBridgeConsumer.connect: an unauthenticated scope user is closed
with code 4001 before accept, so nothing is ever sent; otherwise the channel
joins the group user_<id>, the socket is accepted and the
connection.established message (user_id, username, timestamp) is sent. -/
def connect (st : GatewayState) (user : AuthUser) (ch : Nat) (now : Int) :
    ConnectResult :=
  match user with
  | .anonymous => .closed 4001 st
  | .authenticated u =>
    let st1 : GatewayState := { st with groups := st.groups ++ [(u.id, ch)] }
    .accepted (sendTo st1 ch (.connectionEstablished u.id u.username now))

/-- NeuroBridgeConsumer.create_session: Session.objects.create with the
model defaults started_at now, ended_at None, duration None, is_active
True. -/
def create_session (db : Database) (uid : Nat) (title : String) (now : Int) :
    Session × Database :=
  let s : Session :=
    { id := db.nextSessionId, userId := uid, startedAt := now, endedAt := none
      title := title, durationSeconds := none, isActive := true }
  (s, { db with sessions := db.sessions ++ [s]
                nextSessionId := db.nextSessionId + 1 })

/-- NeuroBridgeConsumer.end_session: looks the session up scoped by (id,
user); on DoesNotExist returns False, otherwise calls Session.end_session
(which saves by primary key) and returns True.  No check of is_active is
performed. -/
def end_session (db : Database) (uid sid : Nat) (now : Int) : Bool × Database :=
  match findSession db sid uid with
  | none => (false, db)
  | some s =>
    (true, { db with sessions :=
        db.sessions.map (fun t => if t.id == s.id then s.end_session now else t) })

/-- NeuroBridgeConsumer.store_metadata: identity-scoped session lookup
(DoesNotExist carries the Django message), then both base64 decodes, then a
single create.  Any raise leaves the store untouched.  No length check is
applied to the decoded iv. -/
def store_metadata (db : Database) (uid sid : Nat) (blob iv : B64)
    (dataType : String) (now : Int) :
    Except String (EncryptedMetadata × Database) :=
  match findSession db sid uid with
  | none => .error "Session matching query does not exist."
  | some s =>
    match b64decode blob with
    | .error e => .error e
    | .ok blobBytes =>
      match b64decode iv with
      | .error e => .error e
      | .ok ivBytes =>
        let m : EncryptedMetadata :=
          { id := db.nextMetadataId, sessionId := s.id
            encryptedBlob := blobBytes, iv := ivBytes
            dataType := dataType, createdAt := now }
        .ok (m, { db with metadata := db.metadata ++ [m]
                          nextMetadataId := db.nextMetadataId + 1 })

/-- The inbound payload fields the four handlers read via data.get.  A none
models an absent key. -/
structure Payload where
  title : Option String := none
  sessionId : Option Nat := none
  encryptedBlob : Option B64 := none
  iv : Option B64 := none
  dataType : Option String := none
deriving DecidableEq, Repr

/-- Python truthiness of data.get(session_id): None and 0 are falsy. -/
def truthyNat : Option Nat → Bool
  | none => false
  | some 0 => false
  | some (_ + 1) => true

/-- Python truthiness of a base64 wire string: absent key and the empty
string are falsy. -/
def truthyB64 : Option B64 → Bool
  | none => false
  | some .emptyStr => false
  | some .malformed => true
  | some (.decoded _) => true

/-- NeuroBridgeConsumer.handle_session_start: creates a Session owned by the
caller with data.get(title, empty), replies session.started on the own
channel, then group_send of a started event to the user group. -/
def handle_session_start (c : Conn) (st : GatewayState) (p : Payload)
    (now : Int) : GatewayState :=
  let title := p.title.getD ""
  let sdb := create_session st.db c.user.id title now
  let st1 := sendTo { st with db := sdb.2 } c.ch (.sessionStarted sdb.1.id sdb.1.startedAt)
  group_send st1 c.user.id { action := "started", sessionId := sdb.1.id }

/-- NeuroBridgeConsumer.handle_session_end: a falsy session_id is a missing
field error; otherwise end_session, then on True a session.ended reply plus
group_send of an ended event, and on False the failed-to-end error. -/
def handle_session_end (c : Conn) (st : GatewayState) (p : Payload)
    (now : Int) : GatewayState :=
  if truthyNat p.sessionId = false then
    sendTo st c.ch (.error "Missing session_id" now)
  else
    let sid := p.sessionId.getD 0
    let rdb := end_session st.db c.user.id sid now
    let st1 : GatewayState := { st with db := rdb.2 }
    if rdb.1 then
      group_send (sendTo st1 c.ch (.sessionEnded sid)) c.user.id
        { action := "ended", sessionId := sid }
    else
      sendTo st1 c.ch (.error "Failed to end session" now)

/-- NeuroBridgeConsumer.handle_metadata_sync: the all([...]) truthiness
check over session_id, encrypted_blob and iv, then store_metadata inside a
try; any raise becomes a failed-to-store error reply and no write, success
replies metadata.synced.  data_type defaults to general. -/
def handle_metadata_sync (c : Conn) (st : GatewayState) (p : Payload)
    (now : Int) : GatewayState :=
  let dataType := p.dataType.getD "general"
  if (truthyNat p.sessionId && truthyB64 p.encryptedBlob && truthyB64 p.iv) = false then
    sendTo st c.ch (.error "Missing required fields for metadata sync" now)
  else
    match store_metadata st.db c.user.id (p.sessionId.getD 0)
        (p.encryptedBlob.getD .emptyStr) (p.iv.getD .emptyStr) dataType now with
    | .error e => sendTo st c.ch (.error ("Failed to store metadata: " ++ e) now)
    | .ok mdb => sendTo { st with db := mdb.2 } c.ch (.metadataSynced mdb.1.id mdb.1.createdAt)

/-- NeuroBridgeConsumer.handle_presence_ping: replies presence.pong. -/
def handle_presence_ping (c : Conn) (st : GatewayState) (_p : Payload)
    (now : Int) : GatewayState :=
  sendTo st c.ch (.presencePong now)

/-- The four handle_ methods defined on NeuroBridgeConsumer.  These are the
only attributes of the consumer whose name starts with handle_. -/
inductive Handler where
  | sessionStart
  | sessionEnd
  | metadataSync
  | presencePing
deriving DecidableEq, Repr

/-- Python str.replace with the single-character arguments dot and
underscore, as applied to the message type in receive: a characterwise
substitution. -/
def pyReplaceDot (s : String) : String :=
  String.mk (s.data.map (fun ch => if ch == '.' then '_' else ch))

/-- The attribute name receive derives from the type field:
handle_ prefixed to the type with dots replaced by underscores. -/
def handlerName (messageType : String) : String :=
  "handle_" ++ pyReplaceDot messageType

/-- getattr(self, name, None) restricted to the handler attributes: returns
the consumer method of that exact name, if any. -/
def getattrHandler (name : String) : Option Handler :=
  if name = "handle_session_start" then some .sessionStart
  else if name = "handle_session_end" then some .sessionEnd
  else if name = "handle_metadata_sync" then some .metadataSync
  else if name = "handle_presence_ping" then some .presencePing
  else none

/-- Run one dispatched handler. -/
def runHandler (h : Handler) (c : Conn) (st : GatewayState) (p : Payload)
    (now : Int) : GatewayState :=
  match h with
  | .sessionStart => handle_session_start c st p now
  | .sessionEnd => handle_session_end c st p now
  | .metadataSync => handle_metadata_sync c st p now
  | .presencePing => handle_presence_ping c st p now

/-- The value of data.get(type) on a decoded frame: absent key, a present
falsy value, a truthy value that is not a string (on which .replace raises
AttributeError with the given message), or a string. -/
inductive TypeField where
  | absent
  | falsy
  | nonString (exnMessage : String)
  | str (s : String)
deriving DecidableEq, Repr

/-- One inbound frame as receive sees it: text that json.loads rejects, a
JSON value that is not an object (data.get raises AttributeError with the
given message), or an object with its type field and payload fields. -/
inductive Inbound where
  | notJson
  | nonObject (exnMessage : String)
  | object (t : TypeField) (p : Payload)
deriving DecidableEq, Repr

/-- Result of one receive call: the new state and whether the server closed
the connection during the call. -/
structure ReceiveResult where
  st : GatewayState
  connectionClosed : Bool
deriving DecidableEq, Repr

/-- NeuroBridgeConsumer.receive: parse, check the type field for truthiness,
derive the handler attribute name from the type and look it up, run it, and
turn every raise into an error reply.  JSONDecodeError and the blanket
except both reply with an error and leave the connection open; no branch
calls close. -/
def receive (c : Conn) (st : GatewayState) (f : Inbound) (now : Int) :
    ReceiveResult :=
  match f with
  | .notJson => ⟨sendTo st c.ch (.error "Invalid JSON" now), false⟩
  | .nonObject m => ⟨sendTo st c.ch (.error ("Internal error: " ++ m) now), false⟩
  | .object t p =>
    match t with
    | .absent => ⟨sendTo st c.ch (.error "Missing type field in message" now), false⟩
    | .falsy => ⟨sendTo st c.ch (.error "Missing type field in message" now), false⟩
    | .nonString m => ⟨sendTo st c.ch (.error ("Internal error: " ++ m) now), false⟩
    | .str s =>
      if s.isEmpty then
        ⟨sendTo st c.ch (.error "Missing type field in message" now), false⟩
      else
        match getattrHandler (handlerName s) with
        | some h => ⟨runHandler h c st p now, false⟩
        | none => ⟨sendTo st c.ch (.error ("Unknown message type: " ++ s) now), false⟩

end Consumer

section Lemmas

open Consumer

/-- A session id that appears on no row is not found for any caller. -/
theorem findSession_eq_none_of_absent (db : Database) (sid uid : Nat)
    (h : ∀ s ∈ db.sessions, s.id ≠ sid) : findSession db sid uid = none := by
  unfold findSession
  apply List.find?_eq_none.mpr
  intro s hs
  simp only [Bool.and_eq_true, beq_iff_eq, not_and]
  intro hsid
  exact absurd hsid (h s hs)

/-- Consumer.end_session on a lookup miss reports failure and writes
nothing. -/
theorem end_session_of_not_found (db : Database) (uid sid : Nat) (now : Int)
    (h : findSession db sid uid = none) :
    Consumer.end_session db uid sid now = (false, db) := by
  unfold Consumer.end_session
  rw [h]

/-- Consumer.store_metadata on a lookup miss raises the uniform Django
DoesNotExist message and writes nothing. -/
theorem store_metadata_of_not_found (db : Database) (uid sid : Nat)
    (blob iv : B64) (dt : String) (now : Int)
    (h : findSession db sid uid = none) :
    Consumer.store_metadata db uid sid blob iv dt now =
      .error "Session matching query does not exist." := by
  unfold Consumer.store_metadata
  rw [h]

end Lemmas

section Claims

open Consumer

/-- Claim C6: immediately after session.start the created Session has
is_active true and ended_at null; immediately after a successful session.end
(which runs Session.end_session) it has is_active false, ended_at set, and
duration_seconds equal to ended_at minus started_at in whole seconds and
nonnegative; and is_active iff ended_at is null holds in both states. -/
theorem C6_session_lifecycle (db : Database) (uid : Nat) (title : String)
    (t0 t1 : Int) (h : t0 ≤ t1) :
    ((create_session db uid title t0).1.isActive = true) ∧
    ((create_session db uid title t0).1.endedAt = none) ∧
    ((create_session db uid title t0).1.isActive = true ↔
      (create_session db uid title t0).1.endedAt = none) ∧
    (((create_session db uid title t0).1.end_session t1).isActive = false) ∧
    (((create_session db uid title t0).1.end_session t1).endedAt = some t1) ∧
    (((create_session db uid title t0).1.end_session t1).durationSeconds =
      some (t1 - t0)) ∧
    (∀ d : Int,
      ((create_session db uid title t0).1.end_session t1).durationSeconds = some d →
      0 ≤ d) ∧
    (((create_session db uid title t0).1.end_session t1).isActive = true ↔
      ((create_session db uid title t0).1.end_session t1).endedAt = none) := by
  refine ⟨rfl, rfl, by simp [create_session], rfl, rfl, rfl, ?_, ?_⟩
  · intro d hd
    simp only [create_session, Session.end_session, Option.some.injEq] at hd
    omega
  · simp [create_session, Session.end_session]

/-- Witness for C6 at a concrete run: start at time 2, end at time 5. -/
theorem C6_session_lifecycle_witness :
    ((create_session ⟨[], [], 1, 1⟩ 42 "" 2).1.end_session 5).durationSeconds =
      some 3 :=
  (C6_session_lifecycle ⟨[], [], 1, 1⟩ 42 "" 2 5 (by decide)).2.2.2.2.2.1

/-- Claim C1: evaluation of the code at the failing input.  Session 1 of
user 42 is already ended (ended_at 150, duration_seconds 50).  A session.end
frame naming it at time 200 is answered with session.ended (no domain
error), ended_at is overwritten to 200, duration_seconds is recomputed to
100, and a session.update broadcast is emitted again: the consumer
end_session has no is_active guard, unlike the REST end action in views.py
which answers that the session is already ended. -/
theorem C1_double_end_divergence :
    receive ⟨7, ⟨42, "alice"⟩⟩
        ⟨⟨[⟨1, 42, 100, some 150, "", some 50, false⟩], [], 2, 1⟩, [(42, 7)], []⟩
        (.object (.str "session.end") ⟨none, some 1, none, none, none⟩) 200 =
      ⟨⟨⟨[⟨1, 42, 100, some 200, "", some 100, false⟩], [], 2, 1⟩, [(42, 7)],
        [(7, .sessionEnded 1), (7, .sessionUpdate "ended" 1)]⟩, false⟩ := by
  rfl

/-- Claim C2: evaluation of the code at the failing input.  A metadata.sync
frame whose iv decodes to 8 bytes, on an owned active session, is not
rejected: the consumer store_metadata persists the record with the 8-byte iv
and replies metadata.synced, while the serializer validate_iv used by the
REST path rejects the same iv. -/
theorem C2_iv_length_divergence :
    (receive ⟨7, ⟨42, "alice"⟩⟩
        ⟨⟨[⟨1, 42, 100, none, "", none, true⟩], [], 2, 1⟩, [(42, 7)], []⟩
        (.object (.str "metadata.sync")
          ⟨none, some 1, some (.decoded [1, 2, 3]),
            some (.decoded [0, 1, 2, 3, 4, 5, 6, 7]), some "notes"⟩) 300 =
      ⟨⟨⟨[⟨1, 42, 100, none, "", none, true⟩],
          [⟨1, 1, [1, 2, 3], [0, 1, 2, 3, 4, 5, 6, 7], "notes", 300⟩], 2, 2⟩,
        [(42, 7)], [(7, .metadataSynced 1 300)]⟩, false⟩) ∧
    ([0, 1, 2, 3, 4, 5, 6, 7] : List Nat).length ≠ 12 ∧
    validate_iv (.decoded [0, 1, 2, 3, 4, 5, 6, 7]) =
      .error "Invalid base64 encoding" := by
  exact ⟨rfl, by decide, rfl⟩

/-- Claim C3: for session.end and metadata.sync, when the named session id
does not resolve to a session owned by the caller, the observable reply
trace is identical whether the session exists but belongs to a different
identity (db1) or does not exist at all (db2): the error never discloses
which case applied. -/
theorem C3_uniform_ownership_error
    (u : Identity) (ch : Nat) (g : List (Nat × Nat)) (db1 db2 : Database)
    (sid : Nat) (t : Int) (blob iv : B64) (dt : Option String)
    (h1 : findSession db1 sid u.id = none)
    (hex : ∃ s ∈ db1.sessions, s.id = sid)
    (h2 : ∀ s ∈ db2.sessions, s.id ≠ sid) :
    ((receive ⟨ch, u⟩ ⟨db1, g, []⟩
        (.object (.str "session.end") ⟨none, some sid, none, none, none⟩) t).st.outbox =
      (receive ⟨ch, u⟩ ⟨db2, g, []⟩
        (.object (.str "session.end") ⟨none, some sid, none, none, none⟩) t).st.outbox) ∧
    ((receive ⟨ch, u⟩ ⟨db1, g, []⟩
        (.object (.str "metadata.sync") ⟨none, some sid, some blob, some iv, dt⟩) t).st.outbox =
      (receive ⟨ch, u⟩ ⟨db2, g, []⟩
        (.object (.str "metadata.sync") ⟨none, some sid, some blob, some iv, dt⟩) t).st.outbox) := by
  have h2' : findSession db2 sid u.id = none :=
    findSession_eq_none_of_absent db2 sid u.id h2
  have e1 : ∀ db, receive ⟨ch, u⟩ ⟨db, g, []⟩
      (.object (.str "session.end") ⟨none, some sid, none, none, none⟩) t =
      ⟨handle_session_end ⟨ch, u⟩ ⟨db, g, []⟩ ⟨none, some sid, none, none, none⟩ t, false⟩ :=
    fun _ => rfl
  have e2 : ∀ db, receive ⟨ch, u⟩ ⟨db, g, []⟩
      (.object (.str "metadata.sync") ⟨none, some sid, some blob, some iv, dt⟩) t =
      ⟨handle_metadata_sync ⟨ch, u⟩ ⟨db, g, []⟩ ⟨none, some sid, some blob, some iv, dt⟩ t, false⟩ :=
    fun _ => rfl
  rw [e1, e1, e2, e2]
  constructor
  · rcases sid with _ | n
    · rfl
    · simp [handle_session_end, truthyNat,
        end_session_of_not_found _ _ _ _ h1,
        end_session_of_not_found _ _ _ _ h2', sendTo]
  · rcases sid with _ | n
    · rfl
    · rcases blob with _ | _ | bs <;> rcases iv with _ | _ | ivs <;>
        simp [handle_metadata_sync, truthyNat, truthyB64,
          store_metadata_of_not_found _ _ _ _ _ _ _ h1,
          store_metadata_of_not_found _ _ _ _ _ _ _ h2', sendTo]

/-- Witness for C3: in db1 session 9 exists but is owned by identity 99; in
db2 no session exists; caller is identity 42 on channel 7. -/
theorem C3_uniform_ownership_error_witness :
    (receive ⟨7, ⟨42, "alice"⟩⟩
        ⟨⟨[⟨9, 99, 0, none, "", none, true⟩], [], 10, 1⟩, [], []⟩
        (.object (.str "session.end") ⟨none, some 9, none, none, none⟩) 0).st.outbox =
      (receive ⟨7, ⟨42, "alice"⟩⟩ ⟨⟨[], [], 1, 1⟩, [], []⟩
        (.object (.str "session.end") ⟨none, some 9, none, none, none⟩) 0).st.outbox :=
  (C3_uniform_ownership_error ⟨42, "alice"⟩ 7 []
      ⟨[⟨9, 99, 0, none, "", none, true⟩], [], 10, 1⟩ ⟨[], [], 1, 1⟩
      9 0 (.decoded [1]) (.decoded [2]) none
      (by decide) (by decide) (by decide)).1

/-- Claim C4: whenever the middleware resolves the scope user to
AnonymousUser, connect closes the socket with code 4001 before accepting and
the state is unchanged, so zero application messages are ever sent on that
connection; and every failure mode named by the claim resolves to
AnonymousUser: absent token, expired signature, invalid or malformed token,
a payload without a user_id claim, and a user_id naming no existing user. -/
theorem C4_auth_failure_close_4001
    (tok : Option JwtDecode) (users : List Identity) (st : GatewayState)
    (ch : Nat) (now : Int)
    (hanon : scope_user tok users = .anonymous)
    (hfresh : sentTo st ch = []) :
    (connect st (scope_user tok users) ch now = .closed 4001 st) ∧
    (sentTo st ch = []) ∧
    (scope_user none users = .anonymous) ∧
    (scope_user (some .expiredSignature) users = .anonymous) ∧
    (scope_user (some .invalidToken) users = .anonymous) ∧
    (scope_user (some (.ok none)) users = .anonymous) ∧
    (∀ uid : Nat, users.find? (fun u => u.id == uid) = none →
      scope_user (some (.ok (some uid))) users = .anonymous) := by
  rw [hanon]
  refine ⟨rfl, hfresh, rfl, rfl, rfl, rfl, ?_⟩
  intro uid h
  simp [scope_user, get_user_from_token, h]

/-- Witness for C4: an absent token against an empty user table on a fresh
connection is closed with 4001. -/
theorem C4_auth_failure_close_4001_witness :
    connect ⟨⟨[], [], 1, 1⟩, [], []⟩ (scope_user none []) 7 0 =
      .closed 4001 ⟨⟨[], [], 1, 1⟩, [], []⟩ :=
  (C4_auth_failure_close_4001 none [] ⟨⟨[], [], 1, 1⟩, [], []⟩ 7 0 rfl rfl).1

/-- Claim C5, counterexample: at a concrete valid connect (identity 42,
alice, channel 7, time 5) the single delivered message is
connection.established, but its wire payload keys are type, user_id,
username, timestamp: there is no identity_id field, so the message does not
carry the fields the claim names. -/
theorem C5_identity_id_counterexample :
    (connect ⟨⟨[], [], 1, 1⟩, [], []⟩ (.authenticated ⟨42, "alice"⟩) 7 5 =
      .accepted ⟨⟨[], [], 1, 1⟩, [(42, 7)],
        [(7, .connectionEstablished 42 "alice" 5)]⟩) ∧
    (sentTo ⟨⟨[], [], 1, 1⟩, [(42, 7)],
        [(7, .connectionEstablished 42 "alice" 5)]⟩ 7 =
      [.connectionEstablished 42 "alice" 5]) ∧
    ("identity_id" ∉ (OutMsg.connectionEstablished 42 "alice" 5).wireKeys) := by
  exact ⟨rfl, rfl, by decide⟩

/-- Claim C5 as amended: on a valid token the connection is accepted after
joining the group of the identity, and the very first message delivered on
the fresh channel is connection.established, carrying user_id (the id of the
authenticated identity), username and timestamp; no other message precedes
it. -/
theorem C5_first_message_established
    (st : GatewayState) (u : Identity) (ch : Nat) (now : Int)
    (hfresh : sentTo st ch = []) :
    (connect st (.authenticated u) ch now =
      .accepted ⟨st.db, st.groups ++ [(u.id, ch)],
        st.outbox ++ [(ch, .connectionEstablished u.id u.username now)]⟩) ∧
    (sentTo ⟨st.db, st.groups ++ [(u.id, ch)],
        st.outbox ++ [(ch, .connectionEstablished u.id u.username now)]⟩ ch =
      [.connectionEstablished u.id u.username now]) ∧
    ((OutMsg.connectionEstablished u.id u.username now).wireType =
      "connection.established") ∧
    ((OutMsg.connectionEstablished u.id u.username now).wireKeys =
      ["type", "user_id", "username", "timestamp"]) := by
  refine ⟨rfl, ?_, rfl, rfl⟩
  simp only [sentTo] at hfresh ⊢
  simp [List.filter_append, hfresh]

/-- Witness for C5 as amended: concrete valid connect on a fresh state. -/
theorem C5_first_message_established_witness :
    connect ⟨⟨[], [], 1, 1⟩, [], []⟩ (.authenticated ⟨42, "alice"⟩) 7 5 =
      .accepted ⟨⟨[], [], 1, 1⟩, [(42, 7)],
        [(7, .connectionEstablished 42 "alice" 5)]⟩ :=
  (C5_first_message_established ⟨⟨[], [], 1, 1⟩, [], []⟩ ⟨42, "alice"⟩ 7 5 rfl).1

/-- Claim C7: with live connections ch1 and ch2 of identity u and ch3 of a
different identity v (the group memberships connect creates), a successful
session.start on ch1 delivers session.update with action started and the
new session id on ch2, and a successful session.end on ch1 delivers
session.update with action ended and the ended session id on ch2; no
session.update is ever delivered on ch3. -/
theorem C7_fanout_same_identity
    (u v : Identity) (ch1 ch2 ch3 : Nat) (db : Database) (t : Int)
    (title : String) (sid : Nat) (s : Session)
    (huv : v.id ≠ u.id) (h12 : ch1 ≠ ch2) (h13 : ch1 ≠ ch3) (h23 : ch2 ≠ ch3)
    (hsid : sid ≠ 0) (hfind : findSession db sid u.id = some s) :
    (sentTo (receive ⟨ch1, u⟩ ⟨db, [(u.id, ch1), (u.id, ch2), (v.id, ch3)], []⟩
        (.object (.str "session.start") ⟨some title, none, none, none, none⟩) t).st ch2 =
      [.sessionUpdate "started" db.nextSessionId]) ∧
    (∀ a k, OutMsg.sessionUpdate a k ∉
      sentTo (receive ⟨ch1, u⟩ ⟨db, [(u.id, ch1), (u.id, ch2), (v.id, ch3)], []⟩
        (.object (.str "session.start") ⟨some title, none, none, none, none⟩) t).st ch3) ∧
    (sentTo (receive ⟨ch1, u⟩ ⟨db, [(u.id, ch1), (u.id, ch2), (v.id, ch3)], []⟩
        (.object (.str "session.end") ⟨none, some sid, none, none, none⟩) t).st ch2 =
      [.sessionUpdate "ended" sid]) ∧
    (∀ a k, OutMsg.sessionUpdate a k ∉
      sentTo (receive ⟨ch1, u⟩ ⟨db, [(u.id, ch1), (u.id, ch2), (v.id, ch3)], []⟩
        (.object (.str "session.end") ⟨none, some sid, none, none, none⟩) t).st ch3) := by
  have estart : receive ⟨ch1, u⟩ ⟨db, [(u.id, ch1), (u.id, ch2), (v.id, ch3)], []⟩
      (.object (.str "session.start") ⟨some title, none, none, none, none⟩) t =
      ⟨handle_session_start ⟨ch1, u⟩ ⟨db, [(u.id, ch1), (u.id, ch2), (v.id, ch3)], []⟩
        ⟨some title, none, none, none, none⟩ t, false⟩ := rfl
  have eend : receive ⟨ch1, u⟩ ⟨db, [(u.id, ch1), (u.id, ch2), (v.id, ch3)], []⟩
      (.object (.str "session.end") ⟨none, some sid, none, none, none⟩) t =
      ⟨handle_session_end ⟨ch1, u⟩ ⟨db, [(u.id, ch1), (u.id, ch2), (v.id, ch3)], []⟩
        ⟨none, some sid, none, none, none⟩ t, false⟩ := rfl
  rw [estart, eend]
  obtain ⟨n, rfl⟩ := Nat.exists_eq_succ_of_ne_zero hsid
  refine ⟨?_, ?_, ?_, ?_⟩
  · simp [handle_session_start, create_session, group_send, session_update,
      sendTo, sentTo, huv, h12, Ne.symm h12, h23]
  · intro a k
    simp [handle_session_start, create_session, group_send, session_update,
      sendTo, sentTo, huv, h13, h23, Ne.symm h13, Ne.symm h23]
  · simp [handle_session_end, truthyNat, Consumer.end_session, hfind,
      group_send, session_update, sendTo, sentTo, huv, h12, Ne.symm h12, h23]
  · intro a k
    simp [handle_session_end, truthyNat, Consumer.end_session, hfind,
      group_send, session_update, sendTo, sentTo, huv, h13, h23,
      Ne.symm h13, Ne.symm h23]

/-- Witness for C7: identities 42 and 99, channels 1, 2, 3, session 5 owned
by identity 42 and active. -/
theorem C7_fanout_same_identity_witness :
    sentTo (receive ⟨1, ⟨42, "alice"⟩⟩
        ⟨⟨[⟨5, 42, 0, none, "", none, true⟩], [], 6, 1⟩,
          [(42, 1), (42, 2), (99, 3)], []⟩
        (.object (.str "session.end") ⟨none, some 5, none, none, none⟩) 9).st 2 =
      [.sessionUpdate "ended" 5] :=
  (C7_fanout_same_identity ⟨42, "alice"⟩ ⟨99, "bob"⟩ 1 2 3
      ⟨[⟨5, 42, 0, none, "", none, true⟩], [], 6, 1⟩ 9 "" 5
      ⟨5, 42, 0, none, "", none, true⟩
      (by decide) (by decide) (by decide) (by decide) (by decide)
      (by decide)).2.2.1

/-- Claim C8, counterexample: the type string session_start, which is not in
the closed set named by the claim, reaches handle_session_start, because the
dispatch derives the attribute name from the field value: at a concrete
authenticated state it creates a session and replies session.started. -/
theorem C8_reflection_dispatch_counterexample :
    (getattrHandler (handlerName "session_start") = some Handler.sessionStart) ∧
    ("session_start" ∉
      ["session.start", "session.end", "metadata.sync", "presence.ping"]) ∧
    (receive ⟨7, ⟨42, "alice"⟩⟩ ⟨⟨[], [], 1, 1⟩, [(42, 7)], []⟩
        (.object (.str "session_start") ⟨none, none, none, none, none⟩) 5 =
      ⟨⟨⟨[⟨1, 42, 5, none, "", none, true⟩], [], 2, 1⟩, [(42, 7)],
        [(7, .sessionStarted 1 5), (7, .sessionUpdate "started" 1)]⟩, false⟩) := by
  exact ⟨by decide, by decide, rfl⟩

/-- Claim C8 as amended: a missing or unrecognized type yields a structured
error reply with message and timestamp keys and the connection stays open,
and a recognized type is dispatched to exactly one of the four handle_
methods; but the mapping is the reflection lookup getattr of handle_ plus
the type with dots replaced by underscores, so the set of recognized type
strings is not the closed four-element set: each dotted type and its
underscore alias dispatch to the same handler, and exactly the strings whose
derived attribute name is no handle_ method are rejected. -/
theorem C8_dispatch_amended :
    (getattrHandler (handlerName "session.start") = some Handler.sessionStart) ∧
    (getattrHandler (handlerName "session.end") = some Handler.sessionEnd) ∧
    (getattrHandler (handlerName "metadata.sync") = some Handler.metadataSync) ∧
    (getattrHandler (handlerName "presence.ping") = some Handler.presencePing) ∧
    (getattrHandler (handlerName "session_start") = some Handler.sessionStart) ∧
    (getattrHandler (handlerName "session_end") = some Handler.sessionEnd) ∧
    (getattrHandler (handlerName "metadata_sync") = some Handler.metadataSync) ∧
    (getattrHandler (handlerName "presence_ping") = some Handler.presencePing) ∧
    (∀ (c : Conn) (st : GatewayState) (p : Payload) (now : Int) (s : String),
      s.isEmpty = false → getattrHandler (handlerName s) = none →
      receive c st (.object (.str s) p) now =
        ⟨sendTo st c.ch (.error ("Unknown message type: " ++ s) now), false⟩) ∧
    (∀ (c : Conn) (st : GatewayState) (p : Payload) (now : Int),
      receive c st (.object .absent p) now =
        ⟨sendTo st c.ch (.error "Missing type field in message" now), false⟩) ∧
    (∀ (m : String) (ts : Int),
      (OutMsg.error m ts).wireKeys = ["type", "message", "timestamp"]) := by
  refine ⟨by decide, by decide, by decide, by decide, by decide, by decide,
    by decide, by decide, ?_, fun c st p now => rfl, fun m ts => rfl⟩
  intro c st p now s hs hnone
  simp [receive, hs, hnone]

/-- Witness for C8 as amended: the unrecognized type bogus yields the
unknown-type error and leaves the connection open. -/
theorem C8_dispatch_amended_witness :
    receive ⟨7, ⟨42, "alice"⟩⟩ ⟨⟨[], [], 1, 1⟩, [], []⟩
        (.object (.str "bogus") ⟨none, none, none, none, none⟩) 5 =
      ⟨sendTo ⟨⟨[], [], 1, 1⟩, [], []⟩ 7 (.error ("Unknown message type: " ++ "bogus") 5),
        false⟩ :=
  C8_dispatch_amended.2.2.2.2.2.2.2.2.1 ⟨7, ⟨42, "alice"⟩⟩ ⟨⟨[], [], 1, 1⟩, [], []⟩
    ⟨none, none, none, none, none⟩ 5 "bogus" (by decide) (by decide)

/-- Claim C9: the session.update fan-out goes to every member of the caller
group including the caller itself, so the acting connection ch receives both
its direct reply (session.started or session.ended) and the session.update
for its own action, while the other same-identity connection ch2 receives
the update alone. -/
theorem C9_caller_receives_own_update
    (u : Identity) (ch ch2 : Nat) (db : Database) (t : Int) (title : String)
    (sid : Nat) (s : Session)
    (h12 : ch ≠ ch2) (hsid : sid ≠ 0) (hfind : findSession db sid u.id = some s) :
    (sentTo (receive ⟨ch, u⟩ ⟨db, [(u.id, ch), (u.id, ch2)], []⟩
        (.object (.str "session.start") ⟨some title, none, none, none, none⟩) t).st ch =
      [.sessionStarted db.nextSessionId t, .sessionUpdate "started" db.nextSessionId]) ∧
    (sentTo (receive ⟨ch, u⟩ ⟨db, [(u.id, ch), (u.id, ch2)], []⟩
        (.object (.str "session.start") ⟨some title, none, none, none, none⟩) t).st ch2 =
      [.sessionUpdate "started" db.nextSessionId]) ∧
    (sentTo (receive ⟨ch, u⟩ ⟨db, [(u.id, ch), (u.id, ch2)], []⟩
        (.object (.str "session.end") ⟨none, some sid, none, none, none⟩) t).st ch =
      [.sessionEnded sid, .sessionUpdate "ended" sid]) ∧
    (sentTo (receive ⟨ch, u⟩ ⟨db, [(u.id, ch), (u.id, ch2)], []⟩
        (.object (.str "session.end") ⟨none, some sid, none, none, none⟩) t).st ch2 =
      [.sessionUpdate "ended" sid]) := by
  have estart : receive ⟨ch, u⟩ ⟨db, [(u.id, ch), (u.id, ch2)], []⟩
      (.object (.str "session.start") ⟨some title, none, none, none, none⟩) t =
      ⟨handle_session_start ⟨ch, u⟩ ⟨db, [(u.id, ch), (u.id, ch2)], []⟩
        ⟨some title, none, none, none, none⟩ t, false⟩ := rfl
  have eend : receive ⟨ch, u⟩ ⟨db, [(u.id, ch), (u.id, ch2)], []⟩
      (.object (.str "session.end") ⟨none, some sid, none, none, none⟩) t =
      ⟨handle_session_end ⟨ch, u⟩ ⟨db, [(u.id, ch), (u.id, ch2)], []⟩
        ⟨none, some sid, none, none, none⟩ t, false⟩ := rfl
  rw [estart, eend]
  obtain ⟨n, rfl⟩ := Nat.exists_eq_succ_of_ne_zero hsid
  refine ⟨?_, ?_, ?_, ?_⟩ <;>
    simp [handle_session_start, handle_session_end, truthyNat, create_session,
      Consumer.end_session, hfind, group_send, session_update, sendTo, sentTo,
      h12, Ne.symm h12]

/-- Witness for C9: identity 42 on channels 1 and 2 ends its active session
5 and receives both the direct reply and the fan-out update. -/
theorem C9_caller_receives_own_update_witness :
    sentTo (receive ⟨1, ⟨42, "alice"⟩⟩
        ⟨⟨[⟨5, 42, 0, none, "", none, true⟩], [], 6, 1⟩, [(42, 1), (42, 2)], []⟩
        (.object (.str "session.end") ⟨none, some 5, none, none, none⟩) 9).st 1 =
      [.sessionEnded 5, .sessionUpdate "ended" 5] :=
  (C9_caller_receives_own_update ⟨42, "alice"⟩ 1 2
      ⟨[⟨5, 42, 0, none, "", none, true⟩], [], 6, 1⟩ 9 "" 5
      ⟨5, 42, 0, none, "", none, true⟩
      (by decide) (by decide) (by decide)).2.2.1

/-- Claim C10: no inbound frame makes receive close the connection from the
server side, and the failure frames all get a structured error reply with
message and timestamp: text that is not valid JSON, a JSON value that is not
an object, and a frame on which the handler path raises (the AttributeError
of a truthy non-string type, surfaced by the blanket except as an internal
error). -/
theorem C10_receive_never_closes (c : Conn) (st : GatewayState) (now : Int) :
    (∀ f : Inbound, (receive c st f now).connectionClosed = false) ∧
    ((receive c st .notJson now).st =
      sendTo st c.ch (.error "Invalid JSON" now)) ∧
    (∀ m : String, (receive c st (.nonObject m) now).st =
      sendTo st c.ch (.error ("Internal error: " ++ m) now)) ∧
    (∀ (m : String) (p : Payload), (receive c st (.object (.nonString m) p) now).st =
      sendTo st c.ch (.error ("Internal error: " ++ m) now)) ∧
    (∀ (m : String) (ts : Int),
      (OutMsg.error m ts).wireKeys = ["type", "message", "timestamp"]) := by
  refine ⟨?_, rfl, fun m => rfl, fun m p => rfl, fun m ts => rfl⟩
  intro f
  rcases f with _ | m | ⟨t, p⟩
  · rfl
  · rfl
  rcases t with _ | _ | m | s
  · rfl
  · rfl
  · rfl
  · simp only [receive]
    split
    · rfl
    · split <;> rfl

end Claims

end NeuroBridge
